import Mathlib

/-!
Verification of the vibe-agent-genkit-engine orchestration layer.

The repository is a TypeScript Genkit service consisting of several drafts of
one `src/index.ts`.  The flows are shallowly embedded here with the external
capabilities (the Genkit generation call, the Firestore prompt store, the
ECMAScript `JSON.parse` builtin) passed in as explicit functional parameters,
exactly as the spec prescribes for its ports.  Two drafts are relevant where
they disagree:

* `v531` definitions follow the latest draft (`index.ts` version 5.3.1,
  `src/unnamed/part_001`);
* `v41` / `mvp` definitions follow the earlier "Definitive Production
  Version v4.1" and the "Pure Google MVP" drafts (`src/unnamed/part_000`).
-/

/-- One role-tagged message handed to `ai.generate`.  In the TypeScript source
a message is `{role, content: [{text}]}`; a content part is just its text. -/
structure GenMessage where
  role : String
  content : List String
deriving DecidableEq, Repr

/-- The argument object of an `ai.generate` call, restricted to the fields the
flows actually populate: an optional `system` instruction, a `messages` array
and an optional single `prompt` string.  The `model` handle and the
`GenerationConfig` (temperature, retrieval, token limits) are not modelled:
no verified claim depends on them. -/
structure GenRequest where
  system : Option String
  messages : List GenMessage
  prompt : Option String
deriving DecidableEq, Repr

/-- A generation response as consumed through `response.text`.  Genkit yields
the empty string when the model produced no text part. -/
structure GenResult where
  text : String
deriving DecidableEq, Repr

/-- The architect plan object, `PlanSchema` in the source:
`z.object({title: z.string(), steps: z.array(z.string())})`. -/
structure Plan where
  title : String
  steps : List String
deriving DecidableEq, Repr

/-- A generation response of a structured-output call, as consumed through
`response.text` and `response.output`; `output` is `none` when the model
completion could not be parsed and validated against the requested schema
(the Genkit library performs that parse, outside this repository). -/
structure StructuredGenResult where
  text : String
  output : Option Plan
deriving DecidableEq, Repr

/-- One externally supplied history turn, `MessageSchema` in the source:
`{role: user|model, content: string}`. -/
structure ChatTurn where
  role : String
  content : String
deriving DecidableEq, Repr

/-- The chat flow result, `ChatResponseSchema` in the source. -/
structure ChatResponse where
  role : String
  content : String
deriving DecidableEq, Repr

/-- `ContextualInputSchema` of the v4.1 draft: the latest user message plus an
optional conversation history. -/
structure ContextualInput where
  latestMessage : String
  history : Option (List ChatTurn)
deriving DecidableEq, Repr

/-- Outcome of one Firestore document read in
`getGenkitPromptFromFirestore`: the read can throw (transport error), find no
document, or find a document whose `prompt_text` field is absent or holds a
string.  -/
inductive StoreResult where
  | transportError : StoreResult
  | notFound : StoreResult
  | doc : Option String → StoreResult
deriving DecidableEq, Repr

/-- Conversion of a `ChatTurn` into the part-wrapped message shape, the
`msg => ({role: msg.role, content: [{text: msg.content}]})` mapping used by
the flows. -/
def chatTurnToGenMessage (m : ChatTurn) : GenMessage :=
  { role := m.role, content := [m.content] }

/-- Characters removed by the ECMAScript `String.prototype.trim` used in the
source; the ASCII whitespace subset suffices for every input considered. -/
def jsWhitespace (c : Char) : Bool :=
  c = ' ' || c = '\t' || c = '\n' || c = '\r' || c = Char.ofNat 11 || c = Char.ofNat 12

/-- Model of the ECMAScript `String.prototype.trim`. -/
def jsTrim (s : String) : String :=
  ⟨((s.data.dropWhile jsWhitespace).reverse.dropWhile jsWhitespace).reverse⟩

/-- Model of the ECMAScript `s.slice(7, -3)` used by the MVP architect flow:
characters from index 7 up to (length - 3), empty when the range is empty. -/
def jsSliceSevenToMinusThree (s : String) : String :=
  ⟨(s.data.take (s.data.length - 3)).drop 7⟩

/-- The code-fence marker tested by the MVP architect flow. -/
def jsonFenceMarker : String := "```json"

/-- The fence handling of the MVP architect flow:
`if (plan.startsWith("```json")) plan = plan.slice(7, -3).trim()`. -/
def stripJsonFence (s : String) : String :=
  if jsonFenceMarker.data.isPrefixOf s.data then jsTrim (jsSliceSevenToMinusThree s) else s

/-- Decides whether `needle` occurs as a contiguous run inside `hay`. -/
def listContains (needle : List Char) : List Char → Bool
  | [] => needle.isEmpty
  | c :: rest => needle.isPrefixOf (c :: rest) || listContains needle rest

/-- The remainder of `hay` after the first occurrence of `needle`, `none`
when `needle` does not occur. -/
def listAfterMatch (needle : List Char) : List Char → Option (List Char)
  | [] => if needle.isEmpty then some [] else none
  | c :: rest =>
    if needle.isPrefixOf (c :: rest) then some ((c :: rest).drop needle.length)
    else listAfterMatch needle rest

/-- Whether `a` occurs in `s` and `b` occurs after the first match of `a`. -/
def occursInOrder (a b s : String) : Bool :=
  match listAfterMatch a.data s.data with
  | some rest => listContains b.data rest
  | none => false

/-- Whether `t` occurs as a contiguous substring of `s`. -/
def strContains (s t : String) : Bool :=
  listContains t.data s.data

/-- The `array.join('\n')` of the conductor flow. -/
def joinWithNewline : List String → String
  | [] => ""
  | [s] => s
  | s :: rest => s ++ "\n" ++ joinWithNewline rest

/-- The `steps.map((step, index) => (index + 1) + ". " + step)` enumeration of
the conductor flow, generalized over the start index. -/
def numberSteps (k : Nat) : List String → List String
  | [] => []
  | s :: rest => (toString (k + 1) ++ ". " ++ s) :: numberSteps (k + 1) rest

/-!
Model of the ECMAScript `JSON.parse` builtin, used by the MVP architect flow
only as a validity check (`try { JSON.parse(plan); return plan; } catch ...`).
The recognizer below follows the ECMA-404 grammar: a JSON text is a value
surrounded by optional whitespace; values are objects, arrays, strings with
escapes, numbers without leading zeros or bare fractions, and the three
literals.  Each parsing function consumes one construct and returns the
remaining input, or `none` on a syntax error.
-/

/-- JSON insignificant whitespace: space, tab, line feed, carriage return. -/
def jsonWs (c : Char) : Bool :=
  c = ' ' || c = '\t' || c = '\n' || c = '\r'

/-- Skips JSON whitespace. -/
def skipWs : List Char → List Char
  | [] => []
  | c :: rest => if jsonWs c then skipWs rest else c :: rest

/-- Hexadecimal digit test for `\uXXXX` escapes. -/
def isHexDigit (c : Char) : Bool :=
  c.isDigit || ('a' ≤ c && c ≤ 'f') || ('A' ≤ c && c ≤ 'F')

/-- Consumes the body of a JSON string after its opening quote, up to and
including the closing quote. -/
def parseStringBody : List Char → Option (List Char)
  | [] => none
  | '"' :: rest => some rest
  | '\\' :: 'u' :: a :: b :: c :: d :: rest =>
    if isHexDigit a && isHexDigit b && isHexDigit c && isHexDigit d then
      parseStringBody rest
    else none
  | '\\' :: e :: rest =>
    if e = '"' || e = '\\' || e = '/' || e = 'b' || e = 'f' || e = 'n' || e = 'r' || e = 't' then
      parseStringBody rest
    else none
  | c :: rest => if c.toNat < 32 then none else parseStringBody rest

/-- Consumes one or more decimal digits. -/
def parseDigitsOneOrMore : List Char → Option (List Char)
  | [] => none
  | c :: rest => if c.isDigit then some (rest.dropWhile Char.isDigit) else none

/-- Consumes an optional JSON fraction part `.digits`. -/
def parseFracPart : List Char → Option (List Char)
  | '.' :: rest => parseDigitsOneOrMore rest
  | s => some s

/-- Consumes an optional JSON exponent part `(e|E)(+|-)?digits`. -/
def parseExpPart : List Char → Option (List Char)
  | c :: rest =>
    if c = 'e' || c = 'E' then
      match rest with
      | s :: rest2 =>
        if s = '+' || s = '-' then parseDigitsOneOrMore rest2
        else parseDigitsOneOrMore rest
      | [] => none
    else some (c :: rest)
  | [] => some []

/-- Consumes the fraction and exponent after the integer part of a number. -/
def parseFracExp (s : List Char) : Option (List Char) :=
  match parseFracPart s with
  | some r => parseExpPart r
  | none => none

/-- Consumes a JSON number after its optional minus sign: `0` or a nonzero
digit followed by digits, then fraction and exponent. -/
def parseNumberTail : List Char → Option (List Char)
  | '0' :: rest => parseFracExp rest
  | c :: rest => if c.isDigit then parseFracExp (rest.dropWhile Char.isDigit) else none
  | [] => none

/-- Consumes a JSON number. -/
def parseNumber : List Char → Option (List Char)
  | '-' :: rest => parseNumberTail rest
  | s => parseNumberTail s

/-- Consumes the literal tail `lit` at the head of the input. -/
def parseLitTail (lit : List Char) (s : List Char) : Option (List Char) :=
  if lit.isPrefixOf s then some (s.drop lit.length) else none

mutual

/-- Consumes one JSON value; `fuel` bounds the recursion depth. -/
def parseValue : Nat → List Char → Option (List Char)
  | 0, _ => none
  | fuel + 1, s =>
    match skipWs s with
    | [] => none
    | c :: rest =>
      if c = Char.ofNat 123 then parseObjectBody fuel rest true
      else if c = '[' then parseArrayBody fuel rest true
      else if c = '"' then parseStringBody rest
      else if c = 't' then parseLitTail ['r', 'u', 'e'] rest
      else if c = 'f' then parseLitTail ['a', 'l', 's', 'e'] rest
      else if c = 'n' then parseLitTail ['u', 'l', 'l'] rest
      else parseNumber (c :: rest)

/-- Consumes the members of a JSON object after the opening brace (or after a
comma when `isFirst` is false), up to and including the closing brace. -/
def parseObjectBody : Nat → List Char → Bool → Option (List Char)
  | 0, _, _ => none
  | fuel + 1, s, isFirst =>
    match skipWs s with
    | [] => none
    | c :: rest =>
      if c = Char.ofNat 125 then (if isFirst then some rest else none)
      else if c = '"' then
        match parseStringBody rest with
        | none => none
        | some afterKey =>
          match skipWs afterKey with
          | ':' :: afterColon =>
            match parseValue fuel afterColon with
            | none => none
            | some afterVal =>
              match skipWs afterVal with
              | [] => none
              | d :: afterSep =>
                if d = ',' then parseObjectBody fuel afterSep false
                else if d = Char.ofNat 125 then some afterSep
                else none
          | _ => none
      else none

/-- Consumes the elements of a JSON array after the opening bracket (or after
a comma when `isFirst` is false), up to and including the closing bracket. -/
def parseArrayBody : Nat → List Char → Bool → Option (List Char)
  | 0, _, _ => none
  | fuel + 1, s, isFirst =>
    match skipWs s with
    | [] => none
    | c :: rest =>
      if c = ']' then (if isFirst then some rest else none)
      else
        match parseValue fuel (c :: rest) with
        | none => none
        | some afterVal =>
          match skipWs afterVal with
          | [] => none
          | d :: afterSep =>
            if d = ',' then parseArrayBody fuel afterSep false
            else if d = ']' then some afterSep
            else none

end

/-- Whether `JSON.parse` accepts `s`: one value consuming the whole input up
to trailing whitespace.  Twice the length plus two is enough fuel, since at
least one character is consumed for every two recursion levels. -/
def isValidJson (s : String) : Bool :=
  match parseValue (2 * s.data.length + 2) s.data with
  | some rest => (skipWs rest).isEmpty
  | none => false

/-- The hard-coded fallback persona returned by the prompt helper on any
failure. -/
def fallbackPrompt : String :=
  "You are a helpful assistant. Your primary prompt failed to load."

/-- `getGenkitPromptFromFirestore` (v5.3.1 draft, identical in v5.2.0/v5.0.0):
reads `genkit_prompts/{promptId}` and returns its `prompt_text` when the
document exists and the field is truthy; every other outcome — a transport
error thrown by the read, a missing document, an absent or empty field —
reaches the catch block and yields the fallback string.  The Firestore client
is the explicit `store` parameter. -/
def getGenkitPromptFromFirestore (store : String → StoreResult) (promptId : String) : String :=
  match store promptId with
  | StoreResult.doc (some promptText) =>
    if promptText = "" then fallbackPrompt else promptText
  | StoreResult.doc none => fallbackPrompt
  | StoreResult.notFound => fallbackPrompt
  | StoreResult.transportError => fallbackPrompt

/-- The Firestore read outcomes the spec calls failures: transport error,
missing document, absent field, empty text. -/
def storeFailing (r : StoreResult) : Prop :=
  r = StoreResult.transportError ∨ r = StoreResult.notFound ∨
    r = StoreResult.doc none ∨ r = StoreResult.doc (some "")

/-- The system instruction of `projectManagerChatFlow`. -/
def pmSystemPrompt : String := "You are a helpful and concise project manager AI."

/-- The `ai.generate` request built by `projectManagerChatFlow`: the fixed
system instruction plus the input history mapped turn by turn into parts. -/
def pmRequest (messages : List ChatTurn) : GenRequest :=
  { system := some pmSystemPrompt,
    messages := messages.map chatTurnToGenMessage,
    prompt := none }

/-- `projectManagerChatFlow` (v5.3.1 draft): calls the generation port on
`pmRequest`; a port failure is caught and rethrown as `Chat flow failed:`,
an empty response text raises the inner error which the same catch block
wraps, and otherwise the flow returns `{role: 'model', content: text}`. -/
def projectManagerChatFlow (gen : GenRequest → Except String GenResult)
    (messages : List ChatTurn) : Except String ChatResponse :=
  match gen (pmRequest messages) with
  | Except.error e => Except.error ("Chat flow failed: " ++ e)
  | Except.ok r =>
    if r.text = "" then
      Except.error "Chat flow failed: AI failed to generate a response text."
    else Except.ok { role := "model", content := r.text }

/-- The message sequence assembled by the v4.1 `generalChatFlow`:
`[...(context.history || []).map(...), {role: 'user', content: [{text:
context.latestMessage}]}]`. -/
def generalChatMessages (context : ContextualInput) : List GenMessage :=
  (context.history.getD []).map chatTurnToGenMessage ++
    [{ role := "user", content := [context.latestMessage] }]

/-- `generalChatFlow` (v4.1 draft): generates over the assembled messages and
returns the response text. -/
def generalChatFlow (gen : GenRequest → Except String GenResult)
    (context : ContextualInput) : Except String String :=
  (gen { system := none, messages := generalChatMessages context, prompt := none }).map
    GenResult.text

/-- The classifier system instruction of the v5.3.1 draft (template literal at
`taskClassifierFlow`). -/
def classifierSystemPromptV531 : String :=
  "\n      You are an expert task classifier. Your job is to analyze the user\x27s request and classify it into one of the following categories.\n      You must respond with ONLY the category name and nothing else.\n\n      Categories:\n      - \"component_request\": The user is asking to create, build, design, or make a visual UI component. Keywords: \"button\", \"form\", \"card\", \"navbar\", \"component\", \"UI\", \"design\".\n      - \"task_request\": The user is asking for a complex, multi-step task to be completed. Keywords: \"write\", \"draft\", \"create a report\", \"summarize\", \"plan\", \"analyze\".\n      - \"general_chat\": The user is making a simple conversational statement, asking a question, or saying hello.\n    "

/-- The two-message request built by the v5.3.1 classifier. -/
def classifierRequestV531 (userInput : String) : GenRequest :=
  { system := none,
    messages :=
      [{ role := "system", content := [classifierSystemPromptV531] },
       { role := "user", content := ["User Request: \"" ++ userInput ++ "\""] }],
    prompt := none }

/-- The label list the v5.3.1 classifier validates against
(`["component_request", "task_request", "general_chat"].includes(...)`). -/
def classifierAllowedLabels : List String :=
  ["component_request", "task_request", "general_chat"]

/-- `taskClassifierFlow` (v5.3.1 draft): generates with temperature 0, then
returns `response.text` when it is `includes`-equal to one of the three
allowed labels and `"general_chat"` otherwise.  No trimming is applied. -/
def taskClassifierFlowV531 (gen : GenRequest → Except String GenResult)
    (userInput : String) : Except String String :=
  match gen (classifierRequestV531 userInput) with
  | Except.error e => Except.error e
  | Except.ok r =>
    if classifierAllowedLabels.contains r.text then Except.ok r.text
    else Except.ok "general_chat"

/-- The classifier system instruction of the v4.1 draft. -/
def classifierSystemPromptV41 : String :=
  "You are a task classification expert. Analyze the user\x27s request and classify it into one of the following categories: component_request, task_request, approval_request, general_chat."

/-- The two-message request built by the v4.1 classifier. -/
def classifierRequestV41 (latestMessage : String) : GenRequest :=
  { system := none,
    messages :=
      [{ role := "system", content := [classifierSystemPromptV41] },
       { role := "user", content := ["User Request: \"" ++ latestMessage ++ "\""] }],
    prompt := none }

/-- `taskClassifierFlow` (v4.1 draft): returns `response.text().trim()`
directly — the trimmed model text, with no validation against any label
set. -/
def taskClassifierFlowV41 (gen : GenRequest → Except String GenResult)
    (context : ContextualInput) : Except String String :=
  (gen (classifierRequestV41 context.latestMessage)).map (fun r => jsTrim r.text)

/-- The request built by the v5.3.1 `architectFlow`: the fetched (or fallback)
persona as system instruction, the task description as prompt, structured
output requested with `PlanSchema`. -/
def architectRequest (systemPrompt taskDescription : String) : GenRequest :=
  { system := some systemPrompt, messages := [], prompt := some taskDescription }

/-- The result handling of the v5.3.1 `architectFlow`: a port failure
propagates; a missing `response.output` raises the architect error; a present
plan object is returned as is. -/
def architectHandle (r : Except String StructuredGenResult) : Except String Plan :=
  match r with
  | Except.error e => Except.error e
  | Except.ok res =>
    match res.output with
    | some plan => Except.ok plan
    | none => Except.error "Architect failed to generate a valid plan object."

/-- `architectFlow` (v5.3.1 draft): fetches the `architect` prompt, generates
with `output: {schema: PlanSchema}`, and returns `response.output` when
present, failing otherwise. -/
def architectFlowV531 (store : String → StoreResult)
    (gen : GenRequest → Except String StructuredGenResult)
    (taskDescription : String) : Except String Plan :=
  architectHandle
    (gen (architectRequest (getGenkitPromptFromFirestore store "architect") taskDescription))

/-- The request built by the MVP `architectFlow`: a system message holding the
fetched (or fallback) persona and a user message holding the task. -/
def architectRequestMvp (systemPrompt taskDescription : String) : GenRequest :=
  { system := none,
    messages :=
      [{ role := "system", content := [systemPrompt] },
       { role := "user", content := [taskDescription] }],
    prompt := none }

/-- `architectFlow` (Pure Google MVP draft): fetches the `architect` prompt,
generates, strips a leading ```json fence, then accepts the text iff
`JSON.parse` does not throw, returning the (de-fenced) JSON text itself. -/
def architectFlowMvp (store : String → StoreResult)
    (gen : GenRequest → Except String GenResult)
    (taskDescription : String) : Except String String :=
  match gen (architectRequestMvp (getGenkitPromptFromFirestore store "architect") taskDescription) with
  | Except.error e => Except.error e
  | Except.ok r =>
    let plan := stripJsonFence r.text
    if isValidJson plan then Except.ok plan
    else Except.error "Architect failed to generate a valid JSON plan."

/-- The system instruction of `componentBuilderFlow` (v5.3.1 draft, template
literal). -/
def componentBuilderSystemPrompt : String :=
  "\n      You are an expert frontend developer specializing in React and TypeScript.\n      Your task is to generate a single, self-contained, production-quality React component based on the user\x27s request.\n      RULES:\n      1.  **Output ONLY the TypeScript code** for the .tsx file.\n      2.  Do NOT include any explanations, apologies, or introductory sentences.\n      3.  Do NOT wrap the code in markdown backticks (```).\n      4.  The component must be a modern, functional React component using hooks.\n      5.  Use Tailwind CSS for styling.\n      6.  The code must be complete and syntactically correct.\n    "

/-- The request built by `componentBuilderFlow`. -/
def componentBuilderRequest (description : String) : GenRequest :=
  { system := some componentBuilderSystemPrompt, messages := [], prompt := some description }

/-- `componentBuilderFlow` (v5.3.1 draft): generates and returns
`response.text` with no post-processing of any kind. -/
def componentBuilderFlow (gen : GenRequest → Except String GenResult)
    (description : String) : Except String String :=
  (gen (componentBuilderRequest description)).map GenResult.text

/-- `creatorFlow` (v5.3.1 draft): fetches the `creator` persona, generates
over the plan text and returns the response text. -/
def creatorFlow (store : String → StoreResult) (gen : GenRequest → Except String GenResult)
    (planAndResearch : String) : Except String String :=
  (gen { system := some (getGenkitPromptFromFirestore store "creator"),
         messages := [], prompt := some planAndResearch }).map GenResult.text

/-- The `creatorInput` template literal of `taskExecutionFlow`: two fixed
instruction lines, the title line, and the steps rendered 1-indexed, one per
line, joined with newlines. -/
def renderCreatorInput (plan : Plan) : String :=
  "\n      Please write a document based on the following plan.\n      Ensure the final output is well-structured and comprehensive.\n      Title: "
    ++ plan.title
    ++ "\n      Steps:\n      "
    ++ joinWithNewline (numberSteps 0 plan.steps)
    ++ "\n    "

/-- `taskExecutionFlow` (v5.3.1 draft), the conductor: awaits the architect
flow (an exception there propagates before anything else runs), renders the
plan through the `creatorInput` template, awaits the creator flow on that
text, and returns the draft verbatim.  The two sub-flows are the explicit
parameters. -/
def taskExecutionFlow (architect : String → Except String Plan)
    (creator : String → Except String String)
    (taskDescription : String) : Except String String :=
  match architect taskDescription with
  | Except.error e => Except.error e
  | Except.ok plan => creator (renderCreatorInput plan)

/-- The closed classification label set of the spec (`ClassificationLabel`). -/
def classificationLabels : List String :=
  ["component_request", "task_request", "approval_request", "general_chat"]

/-- The Plan invariant as the spec states it: non-empty title, at least one
step, every step non-empty. -/
def planInvariant (p : Plan) : Prop :=
  p.title ≠ "" ∧ p.steps ≠ [] ∧ ∀ s ∈ p.steps, s ≠ ""

/-- Index lemma for the conductor enumeration: the entry at position `i` of
`numberSteps k steps` is the step at position `i` labelled `k + i + 1`. -/
theorem numberSteps_getElem (steps : List String) (k i : Nat) :
    (numberSteps k steps)[i]? = steps[i]?.map (fun s => toString (k + i + 1) ++ ". " ++ s) := by
  induction steps generalizing k i with
  | nil => simp [numberSteps]
  | cons s rest ih =>
    cases i with
    | zero => simp [numberSteps]
    | succ n =>
      simp only [numberSteps, List.getElem?_cons_succ]
      rw [ih (k + 1) n]
      congr 1
      funext t
      have h : k + 1 + n = k + (n + 1) := by omega
      rw [h]

/-- Claim C1, counterexample: the v4.1 draft of `taskClassifierFlow` returns
the trimmed model text with no validation, so a hallucinated completion such
as `" banana "` is returned verbatim as `"banana"`, which is not a member of
the closed classification label set — the claimed closure fails on this
draft. -/
theorem c1_counterexample :
    taskClassifierFlowV41 (fun _ => Except.ok ⟨" banana "⟩) ⟨"hello", none⟩
      = Except.ok "banana" ∧
    "banana" ∉ classificationLabels := by
  refine ⟨rfl, ?_⟩
  decide

/-- Claim C1, amended: the v5.3.1 `taskClassifierFlow` always returns a
member of the three-label set `{component_request, task_request,
general_chat}` — a strict subset of the claimed closed set, so in particular
`approval_request` is never returned; any port text outside the three-label
set, including `"approval_request"` itself, is replaced by `general_chat`;
the v4.1 draft returns the trimmed model text with no validation at all. -/
theorem c1_classifier_closure :
    (∀ gen userInput res, taskClassifierFlowV531 gen userInput = Except.ok res →
        res ∈ classifierAllowedLabels ∧ res ∈ classificationLabels ∧
        res ≠ "approval_request") ∧
    (∀ gen userInput r, gen (classifierRequestV531 userInput) = Except.ok r →
        r.text ∉ classifierAllowedLabels →
        taskClassifierFlowV531 gen userInput = Except.ok "general_chat") ∧
    (taskClassifierFlowV531 (fun _ => Except.ok ⟨"approval_request"⟩) "x"
      = Except.ok "general_chat") ∧
    (∀ t context, taskClassifierFlowV41 (fun _ => Except.ok ⟨t⟩) context
        = Except.ok (jsTrim t)) := by
  refine ⟨?_, ?_, rfl, fun t context => rfl⟩
  · intro gen userInput res h
    cases hg : gen (classifierRequestV531 userInput) with
    | error e => simp [taskClassifierFlowV531, hg] at h
    | ok r =>
      simp only [taskClassifierFlowV531, hg] at h
      split at h
      · next hc =>
        cases h
        have hm : r.text ∈ classifierAllowedLabels := by
          simpa using hc
        refine ⟨hm, ?_, ?_⟩ <;>
          (simp only [classifierAllowedLabels, List.mem_cons, List.not_mem_nil,
            or_false] at hm
           rcases hm with h1 | h1 | h1 <;> (rw [h1]; decide))
      · cases h
        refine ⟨by decide, by decide, by decide⟩
  · intro gen userInput r hg hm
    have hc : ¬ (classifierAllowedLabels.contains r.text = true) := by
      intro hcc
      exact hm (by simpa using hcc)
    simp only [taskClassifierFlowV531, hg]
    rw [if_neg hc]

/-- Claim C1, witness: on a port stub emitting garbage, the returned default
is in the three-label set, in the closed set, and is not `approval_request`;
a non-member completion is replaced by `general_chat`. -/
theorem c1_classifier_closure_witness :
    ("general_chat" ∈ classifierAllowedLabels ∧ "general_chat" ∈ classificationLabels ∧
      "general_chat" ≠ "approval_request") ∧
    taskClassifierFlowV531 (fun _ => Except.ok ⟨"banana"⟩) "hi" = Except.ok "general_chat" ∧
    taskClassifierFlowV41 (fun _ => Except.ok ⟨" ok "⟩) ⟨"m", none⟩ = Except.ok (jsTrim " ok ") :=
  ⟨c1_classifier_closure.1 (fun _ => Except.ok ⟨"garbage"⟩) "hi" "general_chat" rfl,
   c1_classifier_closure.2.1 (fun _ => Except.ok ⟨"banana"⟩) "hi" ⟨"banana"⟩ rfl (by decide),
   c1_classifier_closure.2.2.2 " ok " ⟨"m", none⟩⟩

/-- Claim C2, counterexample: the MVP draft of `architectFlow` accepts any
syntactically valid JSON — a Plan-shaped object missing `steps` parses fine,
so the flow succeeds and returns it instead of failing as claimed. -/
theorem c2_counterexample :
    architectFlowMvp (fun _ => StoreResult.notFound)
        (fun _ => Except.ok ⟨"\x7b\"title\":\"T\"\x7d"⟩) "task"
      = Except.ok "\x7b\"title\":\"T\"\x7d" ∧
    strContains "\x7b\"title\":\"T\"\x7d" "steps" = false := by
  refine ⟨rfl, rfl⟩

/-- Claim C2, amended: the MVP `architectFlow` strips an optional ```json
fence and succeeds exactly when the remaining text parses as JSON, returning
that de-fenced text itself (so malformed JSON fails, but a Plan missing
`steps` is accepted, and nothing default or partial is ever substituted); the
v5.3.1 `architectFlow` succeeds exactly on the port's validated structured
value and fails with the architect error when it is absent. -/
theorem c2_architect_validation :
    (∀ store gen task r,
        gen (architectRequestMvp (getGenkitPromptFromFirestore store "architect") task)
          = Except.ok r →
        architectFlowMvp store gen task =
          if isValidJson (stripJsonFence r.text) then Except.ok (stripJsonFence r.text)
          else Except.error "Architect failed to generate a valid JSON plan.") ∧
    (∀ store gen task plan, architectFlowV531 store gen task = Except.ok plan →
        ∃ r, gen (architectRequest (getGenkitPromptFromFirestore store "architect") task)
              = Except.ok r ∧ r.output = some plan) ∧
    (∀ t, architectHandle (Except.ok ⟨t, none⟩)
        = Except.error "Architect failed to generate a valid plan object.") ∧
    (architectFlowMvp (fun _ => StoreResult.notFound)
        (fun _ => Except.ok ⟨"```json\n\x7b\"title\":\"T\",\"steps\":[\"a\",\"b\"]\x7d\n```"⟩) "t"
      = Except.ok "\x7b\"title\":\"T\",\"steps\":[\"a\",\"b\"]\x7d") ∧
    (architectFlowMvp (fun _ => StoreResult.notFound)
        (fun _ => Except.ok ⟨"The plan is: first do a, then b."⟩) "t"
      = Except.error "Architect failed to generate a valid JSON plan.") := by
  refine ⟨?_, ?_, fun t => rfl, rfl, rfl⟩
  · intro store gen task r h
    simp only [architectFlowMvp, h]
  · intro store gen task plan h
    cases hg : gen (architectRequest (getGenkitPromptFromFirestore store "architect") task) with
    | error e => simp [architectFlowV531, architectHandle, hg] at h
    | ok res =>
      cases ho : res.output with
      | none => simp [architectFlowV531, architectHandle, hg, ho] at h
      | some p =>
        simp only [architectFlowV531, architectHandle, hg, ho] at h
        cases h
        exact ⟨res, rfl, ho⟩

/-- Claim C2, witness: the MVP architect behavior instantiated on a port
returning the bare empty object. -/
theorem c2_architect_validation_witness :
    architectFlowMvp (fun _ => StoreResult.notFound)
        (fun _ => Except.ok ⟨"\x7b\x7d"⟩) "t" = Except.ok "\x7b\x7d" := by
  have h := c2_architect_validation.1 (fun _ => StoreResult.notFound)
    (fun _ => Except.ok ⟨"\x7b\x7d"⟩) "t" ⟨"\x7b\x7d"⟩ rfl
  exact h.trans (by rfl)

/-- Claim C3: with the architect step stubbed to any fixed plan, the
conductor hands the creator exactly the rendered plan text and returns the
creator result unmodified; the rendered list is 1-indexed in original order
(entry `i` carries label `i + 1`), and for the plan
`{title: "T", steps: ["a", "b"]}` the creator input contains the literal
substrings `"1. a"` and `"2. b"` in that order. -/
theorem c3_conductor_composition :
    (∀ plan creator task,
        taskExecutionFlow (fun _ => Except.ok plan) creator task
          = creator (renderCreatorInput plan)) ∧
    (∀ steps i, (numberSteps 0 steps)[i]? =
        steps[i]?.map (fun s => toString (i + 1) ++ ". " ++ s)) ∧
    occursInOrder "1. a" "2. b" (renderCreatorInput ⟨"T", ["a", "b"]⟩) = true := by
  refine ⟨fun plan creator task => rfl, ?_, by decide⟩
  intro steps i
  have h := numberSteps_getElem steps 0 i
  simpa using h

/-- Claim C4, counterexample: the v5.3.1 classifier does not trim the model
text before comparing — a completion that is a valid label surrounded by
whitespace, which the claimed trim-then-compare behavior would accept as
`task_request`, instead defaults to `general_chat`. -/
theorem c4_counterexample :
    taskClassifierFlowV531 (fun _ => Except.ok ⟨"task_request\n"⟩) "x"
      = Except.ok "general_chat" ∧
    jsTrim "task_request\n" = "task_request" ∧
    "task_request" ∈ classifierAllowedLabels := by
  refine ⟨rfl, rfl, by decide⟩

/-- Claim C4, amended: the v5.3.1 classifier compares the raw response text
(without trimming) case-sensitively as a whole string against the three-label
set: an exact match is returned and every non-exact match — including
trailing punctuation such as `"task_request."` — defaults to `general_chat`;
the v4.1 draft trims whitespace but performs no comparison at all. -/
theorem c4_classifier_exact_match :
    (∀ gen userInput r, gen (classifierRequestV531 userInput) = Except.ok r →
        r.text ∈ classifierAllowedLabels →
        taskClassifierFlowV531 gen userInput = Except.ok r.text) ∧
    (∀ gen userInput r, gen (classifierRequestV531 userInput) = Except.ok r →
        r.text ∉ classifierAllowedLabels →
        taskClassifierFlowV531 gen userInput = Except.ok "general_chat") ∧
    (taskClassifierFlowV531 (fun _ => Except.ok ⟨"task_request."⟩) "x"
      = Except.ok "general_chat") ∧
    (∀ t context, taskClassifierFlowV41 (fun _ => Except.ok ⟨t⟩) context
        = Except.ok (jsTrim t)) := by
  refine ⟨?_, ?_, rfl, fun t context => rfl⟩
  · intro gen userInput r hg hm
    have hc : classifierAllowedLabels.contains r.text = true := by
      simpa using hm
    simp only [taskClassifierFlowV531, hg]
    rw [if_pos hc]
  · intro gen userInput r hg hm
    have hc : ¬ (classifierAllowedLabels.contains r.text = true) := by
      intro hcc
      exact hm (by simpa using hcc)
    simp only [taskClassifierFlowV531, hg]
    rw [if_neg hc]

/-- Claim C4, witness: an exact label completion is returned as the label;
a trailing-whitespace completion is not a member and defaults. -/
theorem c4_classifier_exact_match_witness :
    taskClassifierFlowV531 (fun _ => Except.ok ⟨"task_request"⟩) "x"
      = Except.ok "task_request" ∧
    taskClassifierFlowV531 (fun _ => Except.ok ⟨" task_request"⟩) "x"
      = Except.ok "general_chat" :=
  ⟨c4_classifier_exact_match.1 (fun _ => Except.ok ⟨"task_request"⟩) "x"
      ⟨"task_request"⟩ rfl (by decide),
   c4_classifier_exact_match.2.1 (fun _ => Except.ok ⟨" task_request"⟩) "x"
      ⟨" task_request"⟩ rfl (by decide)⟩

/-- Claim C5: for every prompt id, a failing Firestore read — transport
error, missing document, absent or empty `prompt_text` — makes the lookup
return the fixed fallback persona rather than propagating the failure, and
the v5.3.1 architect flow then still performs its generation call with the
fallback string as system prompt. -/
theorem c5_prompt_fallback :
    (∀ store promptId, storeFailing (store promptId) →
        getGenkitPromptFromFirestore store promptId = fallbackPrompt) ∧
    (∀ store gen task, storeFailing (store "architect") →
        architectFlowV531 store gen task
          = architectHandle (gen (architectRequest fallbackPrompt task))) := by
  have hbase : ∀ store promptId, storeFailing (store promptId) →
      getGenkitPromptFromFirestore store promptId = fallbackPrompt := by
    intro store promptId h
    rcases h with h | h | h | h <;> simp [getGenkitPromptFromFirestore, h]
  refine ⟨hbase, ?_⟩
  intro store gen task h
  unfold architectFlowV531
  rw [hbase store "architect" h]

/-- Claim C5, witness: with the store reporting a missing document, the
architect flow still succeeds through the port on the fallback persona. -/
theorem c5_prompt_fallback_witness :
    getGenkitPromptFromFirestore (fun _ => StoreResult.notFound) "architect" = fallbackPrompt ∧
    architectFlowV531 (fun _ => StoreResult.notFound)
        (fun _ => Except.ok ⟨"", some ⟨"P", ["s"]⟩⟩) "t" = Except.ok ⟨"P", ["s"]⟩ := by
  refine ⟨c5_prompt_fallback.1 (fun _ => StoreResult.notFound) "architect"
      (Or.inr (Or.inl rfl)), ?_⟩
  rw [c5_prompt_fallback.2 (fun _ => StoreResult.notFound)
      (fun _ => Except.ok ⟨"", some ⟨"P", ["s"]⟩⟩) "t" (Or.inr (Or.inl rfl))]
  rfl

/-- Claim C6, counterexample: `PlanSchema` only constrains field types, so a
schema-conformant structured value with empty title and empty steps passes
the flow's sole `if (!plan)` check — `architectFlow` succeeds while the
claimed Plan invariant is violated. -/
theorem c6_counterexample :
    architectFlowV531 (fun _ => StoreResult.notFound)
        (fun _ => Except.ok ⟨"", some ⟨"", []⟩⟩) "t" = Except.ok ⟨"", []⟩ ∧
    ¬ planInvariant ⟨"", []⟩ := by
  refine ⟨rfl, ?_⟩
  simp [planInvariant]

/-- Claim C6, amended: whenever `architectFlow` succeeds it returns exactly
the generation port's `PlanSchema`-conformant structured value (title a
string, steps a list of strings); presence is the only check — non-emptiness
of title or steps is not enforced.  The MVP draft likewise only guarantees
its successful result is valid JSON text. -/
theorem c6_plan_passthrough :
    (∀ store gen task plan, architectFlowV531 store gen task = Except.ok plan →
        ∃ r, gen (architectRequest (getGenkitPromptFromFirestore store "architect") task)
              = Except.ok r ∧ r.output = some plan) ∧
    (∀ store gen task s, architectFlowMvp store gen task = Except.ok s →
        isValidJson s = true) := by
  constructor
  · intro store gen task plan h
    cases hg : gen (architectRequest (getGenkitPromptFromFirestore store "architect") task) with
    | error e => simp [architectFlowV531, architectHandle, hg] at h
    | ok res =>
      cases ho : res.output with
      | none => simp [architectFlowV531, architectHandle, hg, ho] at h
      | some p =>
        simp only [architectFlowV531, architectHandle, hg, ho] at h
        cases h
        exact ⟨res, rfl, ho⟩
  · intro store gen task s h
    cases hg : gen (architectRequestMvp (getGenkitPromptFromFirestore store "architect") task) with
    | error e => simp [architectFlowMvp, hg] at h
    | ok r =>
      simp only [architectFlowMvp, hg] at h
      split at h
      · next hv =>
        cases h
        exact hv
      · cases h

/-- Claim C6, witness: the passthrough and the MVP validity guarantee at
concrete ports. -/
theorem c6_plan_passthrough_witness :
    (∃ r : StructuredGenResult,
        (Except.ok ⟨"", some ⟨"P", ["s"]⟩⟩ : Except String StructuredGenResult) = Except.ok r ∧
        r.output = some (⟨"P", ["s"]⟩ : Plan)) ∧
    isValidJson "\x7b\x7d" = true :=
  ⟨c6_plan_passthrough.1 (fun _ => StoreResult.notFound)
      (fun _ => Except.ok ⟨"", some ⟨"P", ["s"]⟩⟩) "t" ⟨"P", ["s"]⟩ rfl,
   c6_plan_passthrough.2 (fun _ => StoreResult.notFound)
      (fun _ => Except.ok ⟨"\x7b\x7d"⟩) "t" "\x7b\x7d" rfl⟩

/-- Claim C7: when the architect step fails, the conductor fails immediately
with that same failure; the creator argument is never consulted (the result
is identical for any two creator functions), and no fallback plan exists. -/
theorem c7_conductor_fail_fast :
    ∀ architect creator creator2 task e,
      architect task = Except.error e →
      taskExecutionFlow architect creator task = Except.error e ∧
      taskExecutionFlow architect creator task = taskExecutionFlow architect creator2 task := by
  intro architect creator creator2 task e h
  constructor <;> simp [taskExecutionFlow, h]

/-- Claim C7, witness: a concrete failing architect propagates its error. -/
theorem c7_conductor_fail_fast_witness :
    taskExecutionFlow (fun _ => Except.error "GenerationFailure")
        (fun _ => Except.ok "draft") "t" = Except.error "GenerationFailure" :=
  (c7_conductor_fail_fast (fun _ => Except.error "GenerationFailure")
    (fun _ => Except.ok "draft") (fun _ => Except.ok "other") "t" "GenerationFailure" rfl).1

/-- Claim C8: `generalChatFlow` assembles the history turns mapped one-to-one
in order followed by the newest user turn, a sequence that is never empty and
always ends with that user turn; `projectManagerChatFlow` maps its input
(history plus newest user turn) one-to-one, preserving the same shape. -/
theorem c8_message_assembly :
    (∀ latest hist, generalChatMessages ⟨latest, some hist⟩
        = hist.map chatTurnToGenMessage ++ [{ role := "user", content := [latest] }]) ∧
    (∀ context, generalChatMessages context ≠ []) ∧
    (∀ context, (generalChatMessages context).getLast?
        = some { role := "user", content := [context.latestMessage] }) ∧
    (∀ hist latest, (pmRequest (hist ++ [{ role := "user", content := latest }])).messages
        = hist.map chatTurnToGenMessage ++ [{ role := "user", content := [latest] }]) ∧
    (∀ hist latest,
        (pmRequest (hist ++ [{ role := "user", content := latest }])).messages.getLast?
          = some { role := "user", content := [latest] }) ∧
    (∀ hist latest, (pmRequest (hist ++ [{ role := "user", content := latest }])).messages ≠ []) := by
  refine ⟨fun latest hist => rfl, ?_, ?_, ?_, ?_, ?_⟩
  · intro context
    simp [generalChatMessages]
  · intro context
    simp [generalChatMessages]
  · intro hist latest
    simp [pmRequest, chatTurnToGenMessage]
  · intro hist latest
    simp [pmRequest, chatTurnToGenMessage]
  · intro hist latest
    simp [pmRequest]

/-- Claim C9: `componentBuilderFlow` returns the port's text exactly as
produced, for every text — including one wrapped in a markdown fence, which
the architect-pattern fence stripper would have altered. -/
theorem c9_component_builder_verbatim :
    (∀ t description,
        componentBuilderFlow (fun _ => Except.ok ⟨t⟩) description = Except.ok t) ∧
    (componentBuilderFlow (fun _ => Except.ok ⟨"```json\nconst x = 1;\n```"⟩) "desc"
      = Except.ok "```json\nconst x = 1;\n```") ∧
    stripJsonFence "```json\nconst x = 1;\n```" ≠ "```json\nconst x = 1;\n```" := by
  refine ⟨fun t description => rfl, rfl, by decide⟩

/-- Claim C10: `projectManagerChatFlow` succeeds exactly when the generation
port succeeds with non-empty text; a success carries role `model` and the
non-empty response text verbatim, while empty text and port failures raise a
`Chat flow failed` error. -/
theorem c10_chat_flow_contract :
    ∀ gen messages,
      ((∃ res, projectManagerChatFlow gen messages = Except.ok res) ↔
        (∃ r, gen (pmRequest messages) = Except.ok r ∧ r.text ≠ "")) ∧
      (∀ r, gen (pmRequest messages) = Except.ok r → r.text ≠ "" →
        projectManagerChatFlow gen messages = Except.ok { role := "model", content := r.text }) ∧
      (∀ r, gen (pmRequest messages) = Except.ok r → r.text = "" →
        projectManagerChatFlow gen messages
          = Except.error "Chat flow failed: AI failed to generate a response text.") ∧
      (∀ e, gen (pmRequest messages) = Except.error e →
        projectManagerChatFlow gen messages = Except.error ("Chat flow failed: " ++ e)) ∧
      (∀ res, projectManagerChatFlow gen messages = Except.ok res →
        res.role = "model" ∧ res.content ≠ "") := by
  intro gen messages
  refine ⟨?_, ?_, ?_, ?_, ?_⟩
  · constructor
    · rintro ⟨res, h⟩
      cases hg : gen (pmRequest messages) with
      | error e => simp [projectManagerChatFlow, hg] at h
      | ok r =>
        simp only [projectManagerChatFlow, hg] at h
        split at h
        · cases h
        · next hne => exact ⟨r, rfl, hne⟩
    · rintro ⟨r, hg, hne⟩
      refine ⟨{ role := "model", content := r.text }, ?_⟩
      simp [projectManagerChatFlow, hg, hne]
  · intro r hg hne
    simp [projectManagerChatFlow, hg, hne]
  · intro r hg he
    simp [projectManagerChatFlow, hg, he]
  · intro e hg
    simp [projectManagerChatFlow, hg]
  · intro res h
    cases hg : gen (pmRequest messages) with
    | error e => simp [projectManagerChatFlow, hg] at h
    | ok r =>
      simp only [projectManagerChatFlow, hg] at h
      split at h
      · cases h
      · next hne =>
        cases h
        exact ⟨rfl, hne⟩

/-- Claim C10, witness: a port returning non-empty text yields the model
turn; a port returning empty text fails the flow. -/
theorem c10_chat_flow_contract_witness :
    projectManagerChatFlow (fun _ => Except.ok ⟨"hello"⟩) []
      = Except.ok { role := "model", content := "hello" } ∧
    projectManagerChatFlow (fun _ => Except.ok ⟨""⟩) []
      = Except.error "Chat flow failed: AI failed to generate a response text." :=
  ⟨(c10_chat_flow_contract (fun _ => Except.ok ⟨"hello"⟩) []).2.1 ⟨"hello"⟩ rfl (by decide),
   (c10_chat_flow_contract (fun _ => Except.ok ⟨""⟩) []).2.2.1 ⟨""⟩ rfl rfl⟩
